import Mathlib

/-!
Shallow embedding of `BaseBrowserSessionManager`
(`src/rpa/session.ts` of smartcall-rpa-sdk).

The class serializes every access to the browser resource behind a mutex,
so each public method is modelled as a sequential function from a `Session`
record to a result paired with the updated record.  Outcomes of external
calls (the playwright driver, the subclass hooks `performLogin`,
`isLoggedIn`, `refreshForKeepAlive`, and the caller operation given to
`withPage`) are supplied as a `Behavior` record of `Except` values; a
`.error msg` value models the corresponding promise rejecting with an
error whose message is `msg`.  Thrown errors are modelled by the
`Except String` component of each method result.  Mutex acquisitions and
releases are counted, `emit` calls are recorded in an event list, and
`chromium.launch` calls are counted in `launches`.
-/

deriving instance DecidableEq for Except

namespace RPA

/-- The `SessionState` union type of `session.ts`. -/
inductive SessionState
  | uninitialized
  | starting
  | logging_in
  | ready
  | busy
  | recovering
  | error
  | closed
deriving DecidableEq, Repr

/-- String rendering of a state, as interpolated into error messages. -/
def SessionState.str : SessionState → String
  | .uninitialized => "uninitialized"
  | .starting => "starting"
  | .logging_in => "logging_in"
  | .ready => "ready"
  | .busy => "busy"
  | .recovering => "recovering"
  | .error => "error"
  | .closed => "closed"

/-- Events emitted through the `EventEmitter` base class. -/
inductive Event
  | stateChange (next prev : SessionState)
  | errorEvt (msg : String)
  | sessionExpired
  | recovered
deriving DecidableEq, Repr

/-- The observable fields of a `BaseBrowserSessionManager` instance,
plus instrumentation: a count of mutex acquisitions and releases, the
list of emitted events and a count of `chromium.launch` calls.
The `browser`, `context` and `page` booleans record whether the
corresponding nullable field is non-null.  `Date.now` is modelled by the
`clock` counter, bumped each time `new Date()` is assigned. -/
structure Session where
  browser : Bool
  context : Bool
  page : Bool
  state : SessionState
  lastActivityTime : Nat
  clock : Nat
  keepAliveTimer : Bool
  mutexAcquired : Nat
  mutexReleased : Nat
  events : List Event
  launches : Nat
deriving DecidableEq, Repr

/-- Outcomes of the external asynchronous calls made during one
top-level method invocation. -/
structure Behavior where
  launch : Except String Unit
  newContext : Except String Unit
  newPage : Except String Unit
  performLogin : Except String Unit
  contextClose : Except String Unit
  browserClose : Except String Unit
  refreshForKeepAlive : Except String Unit
  isLoggedIn : Except String Bool
deriving DecidableEq, Repr

/-- Outcome of the race between the caller operation `fn(page)` and the
timeout timer inside `withPage`: the operation resolves first, the
operation rejects first with message `msg`, or the timer fires first. -/
inductive OpOutcome
  | ok
  | err (msg : String)
  | timeout
deriving DecidableEq, Repr

/-- `setState`: assign the new state and emit a `stateChange` event
carrying (new, previous). -/
def setState (s : Session) (n : SessionState) : Session :=
  { s with state := n, events := s.events ++ [Event.stateChange n s.state] }

/-- Record an `emit` call for a non-`stateChange` event. -/
def emit (s : Session) (e : Event) : Session :=
  { s with events := s.events ++ [e] }

/-- Model of `this.lastActivityTime = new Date()`. -/
def touch (s : Session) : Session :=
  { s with clock := s.clock + 1, lastActivityTime := s.clock + 1 }

/-- Model of `await this.mutex.acquire()` (the sequential embedding
never blocks; the acquisition is counted). -/
def mutexAcquire (s : Session) : Session :=
  { s with mutexAcquired := s.mutexAcquired + 1 }

/-- Model of calling the `release` function returned by `acquire`. -/
def mutexRelease (s : Session) : Session :=
  { s with mutexReleased := s.mutexReleased + 1 }

/-- Model of `this.startKeepAlive()`: clears any previous timer and
installs a new interval timer, so afterwards the scheduler runs. -/
def startKeepAlive (s : Session) : Session :=
  { s with keepAliveTimer := true }

/-- The body of `closeBrowser` acting on the nullable-field flags
(context, browser, page).  The `try` block closes the context, nulls it,
closes the browser, nulls it, then nulls the page; the `catch` block
swallows the error, so a rejection freezes the fields mid-sequence. -/
def closeBrowserTriple (b : Behavior) (cx br pg : Bool) : Bool × Bool × Bool :=
  if cx then
    match b.contextClose with
    | .error _ => (cx, br, pg)
    | .ok _ =>
      if br then
        match b.browserClose with
        | .error _ => (false, br, pg)
        | .ok _ => (false, false, false)
      else (false, br, false)
  else
    if br then
      match b.browserClose with
      | .error _ => (cx, br, pg)
      | .ok _ => (cx, false, false)
    else (cx, br, false)

/-- `closeBrowser`: best-effort teardown; only the three handle fields
are touched and any teardown rejection is swallowed. -/
def closeBrowser (b : Behavior) (s : Session) : Session :=
  let t := closeBrowserTriple b s.context s.browser s.page
  { s with context := t.1, browser := t.2.1, page := t.2.2 }

/-- The outcome of the rebuild sequence
launch / newContext / newPage / performLogin run in order, as performed
both by the `try` block of `start` and by `recoverInternal`:
the first rejection aborts the sequence. -/
def rebuildResult (b : Behavior) : Except String Unit :=
  match b.launch with
  | .error e => .error e
  | .ok _ =>
    match b.newContext with
    | .error e => .error e
    | .ok _ =>
      match b.newPage with
      | .error e => .error e
      | .ok _ => b.performLogin

/-- `recoverInternal`: reentrancy-guarded teardown-and-rebuild.
If the state is already `recovering` it returns at once; otherwise it
moves to `recovering`, closes the browser (errors swallowed), relaunches,
recreates context and page, re-runs login, and on success emits
`recovered` and moves to `ready`; on failure it moves to `error`, emits
an `error` event and rethrows. -/
def recoverInternal (b : Behavior) (s : Session) : Except String Unit × Session :=
  if s.state = .recovering then (.ok (), s)
  else
    let s := setState s .recovering
    let s := closeBrowser b s
    match b.launch with
    | .error e =>
      let s := setState s .error
      (.error e, emit s (.errorEvt e))
    | .ok _ =>
      let s := { s with browser := true, launches := s.launches + 1 }
      match b.newContext with
      | .error e =>
        let s := setState s .error
        (.error e, emit s (.errorEvt e))
      | .ok _ =>
        let s := { s with context := true }
        match b.newPage with
        | .error e =>
          let s := setState s .error
          (.error e, emit s (.errorEvt e))
        | .ok _ =>
          let s := { s with page := true }
          match b.performLogin with
          | .error e =>
            let s := setState s .error
            (.error e, emit s (.errorEvt e))
          | .ok _ =>
            let s := emit s .recovered
            (.ok (), setState s .ready)

/-- `start`: guarded by the state precondition, then launch, context,
page, login, keep-alive, `ready`, activity timestamp; any failure inside
the `try` block moves to `error`, emits `error` and rethrows. -/
def start (b : Behavior) (s : Session) : Except String Unit × Session :=
  if s.state ≠ .uninitialized ∧ s.state ≠ .closed ∧ s.state ≠ .error then
    (.error ("Cannot start session in state: " ++ s.state.str), s)
  else
    let s := setState s .starting
    match b.launch with
    | .error e =>
      let s := setState s .error
      (.error e, emit s (.errorEvt e))
    | .ok _ =>
      let s := { s with browser := true, launches := s.launches + 1 }
      match b.newContext with
      | .error e =>
        let s := setState s .error
        (.error e, emit s (.errorEvt e))
      | .ok _ =>
        let s := { s with context := true }
        match b.newPage with
        | .error e =>
          let s := setState s .error
          (.error e, emit s (.errorEvt e))
        | .ok _ =>
          let s := { s with page := true }
          let s := setState s .logging_in
          match b.performLogin with
          | .error e =>
            let s := setState s .error
            (.error e, emit s (.errorEvt e))
          | .ok _ =>
            let s := startKeepAlive s
            let s := setState s .ready
            (.ok (), touch s)

/-- `acquirePage`: implicit recovery from the `error` state, then the
`ready` check, the non-null page check, and the transition to `busy`.
The returned page is non-null exactly when the call succeeds. -/
def acquirePage (b : Behavior) (s : Session) : Except String Unit × Session :=
  let r := if s.state = .error then recoverInternal b s else (.ok (), s)
  match r with
  | (.error e, s) => (.error e, s)
  | (.ok _, s) =>
    if s.state ≠ .ready then
      (.error ("Cannot acquire page in state: " ++ s.state.str), s)
    else if s.page = false then
      (.error "No browser page available", s)
    else
      (.ok (), setState s .busy)

/-- `releasePage`: no-op unless `busy`; otherwise records the activity
time and moves back to `ready`. -/
def releasePage (s : Session) : Session :=
  if s.state = .busy then setState (touch s) .ready else s

/-- Character-list prefix test (`hasPrefixChars h p` holds when `p` is a
prefix of `h`). -/
def hasPrefixChars : List Char → List Char → Bool
  | _, [] => true
  | [], _ :: _ => false
  | c :: cs, d :: ds => decide (d = c) && hasPrefixChars cs ds

/-- Character-list substring test, modelling
`String.prototype.includes`. -/
def hasSubstrChars : List Char → List Char → Bool
  | [], pat => pat.isEmpty
  | c :: cs, pat => hasPrefixChars (c :: cs) pat || hasSubstrChars cs pat

/-- `message.includes(pat)` on the underlying character lists. -/
def strContains (s pat : String) : Bool :=
  hasSubstrChars s.data pat.data

/-- `isBrowserError`: the five driver-crash message signatures. -/
def isBrowserError (msg : String) : Bool :=
  strContains msg "Target closed" ||
  strContains msg "Browser closed" ||
  strContains msg "Protocol error" ||
  strContains msg "Session closed" ||
  strContains msg "Connection closed"

/-- The rejection message built by the timeout timer inside
`withPage`. -/
def timeoutMessage (timeoutMs : Nat) : String :=
  "Page operation timed out after " ++ toString timeoutMs ++ "ms"

/-- `withPage`: acquire the mutex; acquire the page; race the operation
against the timeout; on rejection run recovery when the message matches
a browser-error signature (a recovery failure replaces the original
error); always clear the timer and release the page in the inner
`finally`, and always release the mutex in the outer `finally`.  When
`acquirePage` itself throws, the inner `finally` never runs but the
mutex is still released. -/
def withPage (b : Behavior) (op : OpOutcome) (timeoutMs : Nat) (s : Session) :
    Except String Unit × Session :=
  let s := mutexAcquire s
  let inner : Except String Unit × Session :=
    match acquirePage b s with
    | (.error e, s) => (.error e, s)
    | (.ok _, s) =>
      let raced : Except String Unit :=
        match op with
        | .ok => .ok ()
        | .err m => .error m
        | .timeout => .error (timeoutMessage timeoutMs)
      let caught : Except String Unit × Session :=
        match raced with
        | .ok _ => (.ok (), s)
        | .error e =>
          if isBrowserError e then
            match recoverInternal b s with
            | (.ok _, s) => (.error e, s)
            | (.error re, s) => (.error re, s)
          else (.error e, s)
      (caught.1, releasePage caught.2)
  (inner.1, mutexRelease inner.2)

/-- `refreshSession` (the keep-alive tick): cheap pre-check, mutex
acquisition, re-check, refresh hook, liveness check; an expired session
emits `sessionExpired` and recovers; a throwing hook is caught and also
triggers recovery (the original error is swallowed when that recovery
succeeds, and the recovery error propagates when it fails); the mutex is
released in the `finally`. -/
def refreshSession (b : Behavior) (s : Session) : Except String Unit × Session :=
  if s.state ≠ .ready ∨ s.page = false then (.ok (), s)
  else
    let s := mutexAcquire s
    let inner : Except String Unit × Session :=
      if s.state ≠ .ready ∨ s.page = false then (.ok (), s)
      else
        let tried : Except String Unit × Session :=
          match b.refreshForKeepAlive with
          | .error e => (.error e, s)
          | .ok _ =>
            match b.isLoggedIn with
            | .error e => (.error e, s)
            | .ok loggedIn =>
              if loggedIn then (.ok (), touch s)
              else
                let s := emit s .sessionExpired
                match recoverInternal b s with
                | (.error e, s) => (.error e, s)
                | (.ok _, s) => (.ok (), touch s)
        match tried with
        | (.ok u, s) => (.ok u, s)
        | (.error _, s) => recoverInternal b s
    (inner.1, mutexRelease inner.2)

/-- `recover`: the public entry point, wrapping `recoverInternal` in a
mutex acquisition with a guaranteed release. -/
def recover (b : Behavior) (s : Session) : Except String Unit × Session :=
  let s := mutexAcquire s
  let r := recoverInternal b s
  (r.1, mutexRelease r.2)

/-- `close`: stop the keep-alive timer, tear the browser down
(best-effort) and move to `closed`. -/
def close (b : Behavior) (s : Session) : Except String Unit × Session :=
  let s := { s with keepAliveTimer := false }
  let s := closeBrowser b s
  (.ok (), setState s .closed)

/-- `forceClose`: the fallback teardown path; it performs the same
steps as `close`. -/
def forceClose (b : Behavior) (s : Session) : Except String Unit × Session :=
  let s := { s with keepAliveTimer := false }
  let s := closeBrowser b s
  (.ok (), setState s .closed)

/-- The state of a freshly constructed manager. -/
def initSession : Session :=
  { browser := false, context := false, page := false,
    state := .uninitialized, lastActivityTime := 0, clock := 0,
    keepAliveTimer := false, mutexAcquired := 0, mutexReleased := 0,
    events := [], launches := 0 }

/-- Whenever the state is `ready` or `busy`, the page handle is
non-null.  This is the invariant that justifies the spec treating the
`!this.page` guards as unreachable on a running session. -/
def pageInv (s : Session) : Prop :=
  (s.state = .ready ∨ s.state = .busy) → s.page = true

/-- A behaviour in which every external call succeeds and the session
is still logged in. -/
def allOk : Behavior :=
  { launch := .ok (), newContext := .ok (), newPage := .ok (),
    performLogin := .ok (), contextClose := .ok (), browserClose := .ok (),
    refreshForKeepAlive := .ok (), isLoggedIn := .ok true }

/-- A behaviour in which relaunching the browser fails. -/
def badLaunch : Behavior :=
  { allOk with launch := .error "launch failure" }

/-- A behaviour in which the login hook fails. -/
def badLogin : Behavior :=
  { allOk with performLogin := .error "login failure" }

/-- A behaviour in which creating the browser context fails. -/
def badContext : Behavior :=
  { allOk with newContext := .error "context failure" }

/-- A behaviour in which the keep-alive refresh hook fails and the
subsequent recovery also fails at the relaunch step. -/
def badTick : Behavior :=
  { allOk with refreshForKeepAlive := .error "refresh failure",
               launch := .error "launch failure" }

/-- The session right after a successful `start` on a fresh manager. -/
def readySession : Session := (start allOk initSession).2

/-- A session in the middle of a recovery cycle. -/
def recoveringSession : Session := setState readySession .recovering

/-- The session after a resource-fatal operation error whose recovery
failed: state `error`, keep-alive timer still installed. -/
def erroredSession : Session :=
  (withPage badLaunch (.err "Target closed") 60000 readySession).2

/-- The session after a `start` whose context creation failed: the
browser field is set but context and page are not. -/
def partialSession : Session := (start badContext initSession).2

/-- One externally triggerable step of the manager: any public method
call (or a keep-alive tick) under any behaviour of the external
collaborators. -/
inductive Step : Session → Session → Prop
  | start (b : Behavior) (s : Session) : Step s (start b s).2
  | withPage (b : Behavior) (op : OpOutcome) (t : Nat) (s : Session) :
      Step s (withPage b op t s).2
  | acquirePage (b : Behavior) (s : Session) : Step s (acquirePage b s).2
  | releasePage (s : Session) : Step s (releasePage s)
  | recover (b : Behavior) (s : Session) : Step s (recover b s).2
  | refreshSession (b : Behavior) (s : Session) : Step s (refreshSession b s).2
  | close (b : Behavior) (s : Session) : Step s (close b s).2
  | forceClose (b : Behavior) (s : Session) : Step s (forceClose b s).2

/-- A session state reachable from a freshly constructed manager by
public method calls and keep-alive ticks. -/
def Reachable (s : Session) : Prop :=
  Relation.ReflTransGen Step initSession s

/-! ## Helper lemmas: frame facts and characterizations -/

theorem closeBrowser_frame (b : Behavior) (s : Session) :
    (closeBrowser b s).state = s.state ∧
    (closeBrowser b s).events = s.events ∧
    (closeBrowser b s).launches = s.launches ∧
    (closeBrowser b s).mutexAcquired = s.mutexAcquired ∧
    (closeBrowser b s).mutexReleased = s.mutexReleased ∧
    (closeBrowser b s).keepAliveTimer = s.keepAliveTimer ∧
    (closeBrowser b s).clock = s.clock ∧
    (closeBrowser b s).lastActivityTime = s.lastActivityTime := by
  simp [closeBrowser]

theorem recoverInternal_guard (b : Behavior) (s : Session)
    (h : s.state = .recovering) : recoverInternal b s = (.ok (), s) := by
  simp [recoverInternal, h]

theorem recoverInternal_ok (b : Behavior) (s : Session)
    (h : s.state ≠ .recovering) (hr : rebuildResult b = .ok ()) :
    recoverInternal b s =
      (.ok (), { s with
                   browser := true, context := true, page := true,
                   state := .ready, launches := s.launches + 1,
                   events := s.events ++
                     [Event.stateChange .recovering s.state, Event.recovered,
                      Event.stateChange .ready .recovering] }) := by
  cases h1 : b.launch with
  | error e => simp [rebuildResult, h1] at hr
  | ok _ =>
    cases h2 : b.newContext with
    | error e => simp [rebuildResult, h1, h2] at hr
    | ok _ =>
      cases h3 : b.newPage with
      | error e => simp [rebuildResult, h1, h2, h3] at hr
      | ok _ =>
        cases h4 : b.performLogin with
        | error e => simp [rebuildResult, h1, h2, h3, h4] at hr
        | ok _ =>
          simp [recoverInternal, h, h1, h2, h3, h4, setState, emit, closeBrowser]

theorem recoverInternal_err (b : Behavior) (s : Session) (e : String)
    (h : s.state ≠ .recovering) (hr : rebuildResult b = .error e) :
    (recoverInternal b s).1 = .error e ∧
    (recoverInternal b s).2.state = .error ∧
    (recoverInternal b s).2.events = s.events ++
      [Event.stateChange .recovering s.state,
       Event.stateChange .error .recovering, Event.errorEvt e] ∧
    (recoverInternal b s).2.mutexAcquired = s.mutexAcquired ∧
    (recoverInternal b s).2.mutexReleased = s.mutexReleased ∧
    (recoverInternal b s).2.keepAliveTimer = s.keepAliveTimer ∧
    (recoverInternal b s).2.clock = s.clock ∧
    (recoverInternal b s).2.lastActivityTime = s.lastActivityTime := by
  cases h1 : b.launch with
  | error e1 =>
    simp [rebuildResult, h1] at hr
    subst hr
    simp [recoverInternal, h, h1, setState, emit, closeBrowser]
  | ok _ =>
    cases h2 : b.newContext with
    | error e2 =>
      simp [rebuildResult, h1, h2] at hr
      subst hr
      simp [recoverInternal, h, h1, h2, setState, emit, closeBrowser]
    | ok _ =>
      cases h3 : b.newPage with
      | error e3 =>
        simp [rebuildResult, h1, h2, h3] at hr
        subst hr
        simp [recoverInternal, h, h1, h2, h3, setState, emit, closeBrowser]
      | ok _ =>
        cases h4 : b.performLogin with
        | error e4 =>
          simp [rebuildResult, h1, h2, h3, h4] at hr
          subst hr
          simp [recoverInternal, h, h1, h2, h3, h4, setState, emit, closeBrowser]
        | ok _ => simp [rebuildResult, h1, h2, h3, h4] at hr

theorem recoverInternal_frame (b : Behavior) (s : Session) :
    (recoverInternal b s).2.mutexAcquired = s.mutexAcquired ∧
    (recoverInternal b s).2.mutexReleased = s.mutexReleased ∧
    (recoverInternal b s).2.keepAliveTimer = s.keepAliveTimer ∧
    (recoverInternal b s).2.clock = s.clock ∧
    (recoverInternal b s).2.lastActivityTime = s.lastActivityTime := by
  by_cases h : s.state = .recovering
  · simp [recoverInternal_guard b s h]
  · cases h1 : b.launch <;> cases h2 : b.newContext <;> cases h3 : b.newPage <;>
      cases h4 : b.performLogin <;>
      simp [recoverInternal, h, h1, h2, h3, h4, setState, emit, closeBrowser]

theorem recoverInternal_pageInv (b : Behavior) (s : Session)
    (h : (s.state = .ready ∨ s.state = .busy) → s.page = true) :
    ((recoverInternal b s).2.state = .ready ∨ (recoverInternal b s).2.state = .busy) →
      (recoverInternal b s).2.page = true := by
  by_cases hg : s.state = .recovering
  · simp [recoverInternal_guard b s hg]
    exact h
  · cases hr : rebuildResult b with
    | ok u =>
      obtain rfl : u = () := rfl
      simp [recoverInternal_ok b s hg hr]
    | error e =>
      obtain ⟨-, h2, -⟩ := recoverInternal_err b s e hg hr
      simp [h2]

theorem acquirePage_notReady (b : Behavior) (s : Session)
    (h1 : s.state ≠ .error) (h2 : s.state ≠ .ready) :
    acquirePage b s = (.error ("Cannot acquire page in state: " ++ s.state.str), s) := by
  simp [acquirePage, h1, h2]

theorem acquirePage_noPage (b : Behavior) (s : Session)
    (h1 : s.state = .ready) (h2 : s.page = false) :
    acquirePage b s = (.error "No browser page available", s) := by
  simp [acquirePage, h1, h2]

theorem acquirePage_ready (b : Behavior) (s : Session)
    (h1 : s.state = .ready) (h2 : s.page = true) :
    acquirePage b s = (.ok (), setState s .busy) := by
  simp [acquirePage, h1, h2]

theorem acquirePage_error_ok (b : Behavior) (s : Session)
    (h1 : s.state = .error) (hr : rebuildResult b = .ok ()) :
    acquirePage b s =
      (.ok (), { s with
                   browser := true, context := true, page := true,
                   state := .busy, launches := s.launches + 1,
                   events := s.events ++
                     [Event.stateChange .recovering .error, Event.recovered,
                      Event.stateChange .ready .recovering,
                      Event.stateChange .busy .ready] }) := by
  have hg : s.state ≠ .recovering := by simp [h1]
  simp [acquirePage, h1, recoverInternal_ok b s hg hr, setState]

theorem acquirePage_error_err (b : Behavior) (s : Session) (e : String)
    (h1 : s.state = .error) (hr : rebuildResult b = .error e) :
    acquirePage b s = (.error e, (recoverInternal b s).2) ∧
    (acquirePage b s).2.state = .error := by
  have hg : s.state ≠ .recovering := by simp [h1]
  obtain ⟨hr1, hr2, -⟩ := recoverInternal_err b s e hg hr
  have key : acquirePage b s = (.error e, (recoverInternal b s).2) := by
    simp only [acquirePage, h1, ite_true]
    rcases hR : recoverInternal b s with ⟨r, s2⟩
    rw [hR] at hr1
    simp only at hr1
    subst hr1
    simp
  refine ⟨key, ?_⟩
  rw [key]
  exact hr2

theorem acquirePage_mutex (b : Behavior) (s : Session) :
    (acquirePage b s).2.mutexAcquired = s.mutexAcquired ∧
    (acquirePage b s).2.mutexReleased = s.mutexReleased := by
  obtain ⟨hm1, hm2, -⟩ := recoverInternal_frame b s
  by_cases h1 : s.state = .error
  · simp only [acquirePage, h1, ite_true]
    rcases hR : recoverInternal b s with ⟨r, s2⟩
    rw [hR] at hm1 hm2
    simp only at hm1 hm2
    cases r
    · simpa using ⟨hm1, hm2⟩
    · by_cases h2 : s2.state = .ready
      · by_cases h3 : s2.page = false <;> simp [h2, h3, setState, hm1, hm2]
      · simp [h2, hm1, hm2]
  · simp only [acquirePage, h1, ite_false]
    by_cases h2 : s.state = .ready
    · by_cases h3 : s.page = false <;> simp [h2, h3, setState]
    · simp [h2]

theorem releasePage_frame (s : Session) :
    (releasePage s).mutexAcquired = s.mutexAcquired ∧
    (releasePage s).mutexReleased = s.mutexReleased ∧
    (releasePage s).keepAliveTimer = s.keepAliveTimer ∧
    (releasePage s).launches = s.launches ∧
    (releasePage s).page = s.page := by
  by_cases h : s.state = .busy <;> simp [releasePage, h, setState, touch]

theorem start_guard (b : Behavior) (s : Session)
    (h : s.state ≠ .uninitialized ∧ s.state ≠ .closed ∧ s.state ≠ .error) :
    start b s = (.error ("Cannot start session in state: " ++ s.state.str), s) := by
  simp [start, h]

theorem start_ok (b : Behavior) (s : Session)
    (h : s.state = .uninitialized ∨ s.state = .closed ∨ s.state = .error)
    (hr : rebuildResult b = .ok ()) :
    start b s =
      (.ok (), { s with
                   browser := true, context := true, page := true,
                   state := .ready, keepAliveTimer := true,
                   launches := s.launches + 1,
                   clock := s.clock + 1, lastActivityTime := s.clock + 1,
                   events := s.events ++
                     [Event.stateChange .starting s.state,
                      Event.stateChange .logging_in .starting,
                      Event.stateChange .ready .logging_in] }) := by
  have hc : ¬(s.state ≠ .uninitialized ∧ s.state ≠ .closed ∧ s.state ≠ .error) := by
    rcases h with h | h | h <;> simp [h]
  cases h1 : b.launch with
  | error e => simp [rebuildResult, h1] at hr
  | ok _ =>
    cases h2 : b.newContext with
    | error e => simp [rebuildResult, h1, h2] at hr
    | ok _ =>
      cases h3 : b.newPage with
      | error e => simp [rebuildResult, h1, h2, h3] at hr
      | ok _ =>
        cases h4 : b.performLogin with
        | error e => simp [rebuildResult, h1, h2, h3, h4] at hr
        | ok _ =>
          simp [start, hc, h1, h2, h3, h4, setState, emit, startKeepAlive, touch]

theorem start_err (b : Behavior) (s : Session) (e : String)
    (h : s.state = .uninitialized ∨ s.state = .closed ∨ s.state = .error)
    (hr : rebuildResult b = .error e) :
    (start b s).1 = .error e ∧
    (start b s).2.state = .error ∧
    (start b s).2.keepAliveTimer = s.keepAliveTimer ∧
    (∃ l, (start b s).2.events = s.events ++ l ∧ Event.errorEvt e ∈ l) := by
  have hc : ¬(s.state ≠ .uninitialized ∧ s.state ≠ .closed ∧ s.state ≠ .error) := by
    rcases h with h | h | h <;> simp [h]
  cases h1 : b.launch with
  | error e1 =>
    simp [rebuildResult, h1] at hr
    subst hr
    simp [start, hc, h1, setState, emit, startKeepAlive, touch]
  | ok _ =>
    cases h2 : b.newContext with
    | error e2 =>
      simp [rebuildResult, h1, h2] at hr
      subst hr
      simp [start, hc, h1, h2, setState, emit, startKeepAlive, touch]
    | ok _ =>
      cases h3 : b.newPage with
      | error e3 =>
        simp [rebuildResult, h1, h2, h3] at hr
        subst hr
        simp [start, hc, h1, h2, h3, setState, emit, startKeepAlive, touch]
      | ok _ =>
        cases h4 : b.performLogin with
        | error e4 =>
          simp [rebuildResult, h1, h2, h3, h4] at hr
          subst hr
          simp [start, hc, h1, h2, h3, h4, setState, emit, startKeepAlive, touch]
        | ok _ => simp [rebuildResult, h1, h2, h3, h4] at hr

/-! ## The handle invariant on reachable states -/

theorem pageInv_recoverInternal2 (b : Behavior) (s : Session)
    (h : pageInv s) : pageInv (recoverInternal b s).2 :=
  recoverInternal_pageInv b s h

theorem pageInv_acquirePage (b : Behavior) (s : Session)
    (h : pageInv s) : pageInv (acquirePage b s).2 := by
  by_cases h1 : s.state = .error
  · have h2 := pageInv_recoverInternal2 b s h
    simp only [acquirePage, h1, ite_true]
    rcases hR : recoverInternal b s with ⟨r, s2⟩
    rw [hR] at h2
    simp only at h2
    cases r
    · simpa using h2
    · by_cases h3 : s2.state = .ready
      · by_cases h4 : s2.page = false
        · simpa [h3, h4] using h2
        · simp only [pageInv] at h2
          simp [h3, h4, setState, pageInv, h2 (Or.inl h3)]
      · simpa [h3] using h2
  · simp only [acquirePage, h1, ite_false]
    by_cases h3 : s.state = .ready
    · by_cases h4 : s.page = false
      · simpa [h3, h4] using h
      · simp only [pageInv] at h
        simp [h3, h4, setState, pageInv, h (Or.inl h3)]
    · simpa [h3] using h

theorem pageInv_releasePage (s : Session) (h : pageInv s) :
    pageInv (releasePage s) := by
  by_cases h1 : s.state = .busy
  · simp only [pageInv] at h
    simp [releasePage, h1, setState, touch, pageInv, h (Or.inr h1)]
  · simpa [releasePage, h1] using h

theorem pageInv_start (b : Behavior) (s : Session) (h : pageInv s) :
    pageInv (start b s).2 := by
  by_cases hc : s.state ≠ .uninitialized ∧ s.state ≠ .closed ∧ s.state ≠ .error
  · simpa [start_guard b s hc] using h
  · have hpre : s.state = .uninitialized ∨ s.state = .closed ∨ s.state = .error := by
      by_contra hn
      push_neg at hn
      exact hc ⟨hn.1, hn.2.1, hn.2.2⟩
    cases hr : rebuildResult b with
    | ok u =>
      obtain rfl : u = () := rfl
      simp [start_ok b s hpre hr, pageInv]
    | error e =>
      obtain ⟨-, h2, -⟩ := start_err b s e hpre hr
      simp [pageInv, h2]

theorem pageInv_withPage (b : Behavior) (op : OpOutcome) (t : Nat) (s : Session)
    (h : pageInv s) : pageInv (withPage b op t s).2 := by
  have hA : pageInv (acquirePage b (mutexAcquire s)).2 := by
    apply pageInv_acquirePage
    simpa [pageInv, mutexAcquire] using h
  simp only [withPage]
  rcases hR : acquirePage b (mutexAcquire s) with ⟨r, s1⟩
  rw [hR] at hA
  simp only at hA
  cases r
  · simpa [pageInv, mutexRelease] using hA
  · cases op with
    | ok => simpa [pageInv, mutexRelease] using pageInv_releasePage s1 hA
    | err m =>
      by_cases hb : isBrowserError m
      · simp only [hb, if_true]
        rcases hR2 : recoverInternal b s1 with ⟨r2, s2⟩
        have h2 : pageInv s2 := by
          have := pageInv_recoverInternal2 b s1 hA
          rwa [hR2] at this
        cases r2 <;> simpa [pageInv, mutexRelease] using pageInv_releasePage s2 h2
      · simp only [hb, if_false]
        simpa [pageInv, mutexRelease] using pageInv_releasePage s1 hA
    | timeout =>
      by_cases hb : isBrowserError (timeoutMessage t)
      · simp only [hb, if_true]
        rcases hR2 : recoverInternal b s1 with ⟨r2, s2⟩
        have h2 : pageInv s2 := by
          have := pageInv_recoverInternal2 b s1 hA
          rwa [hR2] at this
        cases r2 <;> simpa [pageInv, mutexRelease] using pageInv_releasePage s2 h2
      · simp only [hb, if_false]
        simpa [pageInv, mutexRelease] using pageInv_releasePage s1 hA

theorem pageInv_refreshSession (b : Behavior) (s : Session) (h : pageInv s) :
    pageInv (refreshSession b s).2 := by
  by_cases h0 : s.state ≠ .ready ∨ s.page = false
  · simpa [refreshSession, h0] using h
  · have hM : pageInv (mutexAcquire s) := by simpa [pageInv, mutexAcquire] using h
    simp only [refreshSession, h0, ite_false]
    have h0' : ¬((mutexAcquire s).state ≠ .ready ∨ (mutexAcquire s).page = false) := by
      simpa [mutexAcquire] using h0
    simp only [h0', ite_false]
    cases h1 : b.refreshForKeepAlive with
    | error e =>
      rcases hR : recoverInternal b (mutexAcquire s) with ⟨r2, s2⟩
      have h2 : pageInv s2 := by
        have := pageInv_recoverInternal2 b (mutexAcquire s) hM
        rwa [hR] at this
      simpa [pageInv, mutexRelease, hR] using h2
    | ok _ =>
      cases h2 : b.isLoggedIn with
      | error e =>
        rcases hR : recoverInternal b (mutexAcquire s) with ⟨r2, s2⟩
        have h3 : pageInv s2 := by
          have := pageInv_recoverInternal2 b (mutexAcquire s) hM
          rwa [hR] at this
        simpa [pageInv, mutexRelease, hR] using h3
      | ok loggedIn =>
        cases loggedIn with
        | true => simpa [pageInv, mutexRelease, touch] using hM
        | false =>
          have hE : pageInv (emit (mutexAcquire s) .sessionExpired) := by
            simpa [pageInv, emit] using hM
          rcases hR : recoverInternal b (emit (mutexAcquire s) .sessionExpired)
            with ⟨r2, s2⟩
          have h3 : pageInv s2 := by
            have := pageInv_recoverInternal2 b (emit (mutexAcquire s) .sessionExpired) hE
            rwa [hR] at this
          cases r2 with
          | error e =>
            rcases hR2 : recoverInternal b s2 with ⟨r3, s3⟩
            have h4 : pageInv s3 := by
              have := pageInv_recoverInternal2 b s2 h3
              rwa [hR2] at this
            simpa [pageInv, mutexRelease, hR2] using h4
          | ok _ => simpa [pageInv, mutexRelease, touch] using h3

theorem pageInv_recover (b : Behavior) (s : Session) (h : pageInv s) :
    pageInv (recover b s).2 := by
  have hM : pageInv (mutexAcquire s) := by simpa [pageInv, mutexAcquire] using h
  have := pageInv_recoverInternal2 b (mutexAcquire s) hM
  simpa [recover, pageInv, mutexRelease] using this

theorem pageInv_close (b : Behavior) (s : Session) :
    pageInv (close b s).2 := by
  simp [close, setState, pageInv]

theorem pageInv_forceClose (b : Behavior) (s : Session) :
    pageInv (forceClose b s).2 := by
  simp [forceClose, setState, pageInv]

theorem pageInv_step {s1 s2 : Session} (hstep : Step s1 s2) (h : pageInv s1) :
    pageInv s2 := by
  cases hstep with
  | start b => exact pageInv_start b s1 h
  | withPage b op t => exact pageInv_withPage b op t s1 h
  | acquirePage b => exact pageInv_acquirePage b s1 h
  | releasePage => exact pageInv_releasePage s1 h
  | recover b => exact pageInv_recover b s1 h
  | refreshSession b => exact pageInv_refreshSession b s1 h
  | close b => exact pageInv_close b s1
  | forceClose b => exact pageInv_forceClose b s1

theorem reachable_pageInv (s : Session) (h : Reachable s) : pageInv s := by
  induction h with
  | refl => intro hr; simp [initSession] at hr
  | tail _ hstep ih => exact pageInv_step hstep ih

/-! ## Claim theorems -/

/-- Claim C1: every invocation of `withPage` acquires the Exclusivity
Gate exactly once and releases it exactly once, after the call returns
or throws, on every exit path: operation success, business error,
timeout, resource-fatal error with successful or failed recovery, and
also when `acquirePage` itself throws before the operation runs. -/
theorem claim_C1_withPage_gate_released_once
    (b : Behavior) (op : OpOutcome) (t : Nat) (s : Session) :
    (withPage b op t s).2.mutexAcquired = s.mutexAcquired + 1 ∧
    (withPage b op t s).2.mutexReleased = s.mutexReleased + 1 := by
  obtain ⟨hA1, hA2⟩ := acquirePage_mutex b (mutexAcquire s)
  simp only [withPage]
  rcases hR : acquirePage b (mutexAcquire s) with ⟨r, s1⟩
  rw [hR] at hA1 hA2
  simp only at hA1 hA2
  have hs1a : s1.mutexAcquired = s.mutexAcquired + 1 := hA1
  have hs1r : s1.mutexReleased = s.mutexReleased := hA2
  have hfin : ∀ s2 : Session,
      s2.mutexAcquired = s.mutexAcquired + 1 →
      s2.mutexReleased = s.mutexReleased →
      (mutexRelease (releasePage s2)).mutexAcquired = s.mutexAcquired + 1 ∧
      (mutexRelease (releasePage s2)).mutexReleased = s.mutexReleased + 1 := by
    intro s2 ha hb2
    obtain ⟨f1, f2, -⟩ := releasePage_frame s2
    simp [mutexRelease, f1, f2, ha, hb2]
  cases r with
  | error e => simp [mutexRelease, hs1a, hs1r]
  | ok _ =>
    have hrec : ∀ s2 : Session,
        s2.mutexAcquired = s.mutexAcquired + 1 →
        s2.mutexReleased = s.mutexReleased →
        (mutexRelease (releasePage (recoverInternal b s2).2)).mutexAcquired
            = s.mutexAcquired + 1 ∧
        (mutexRelease (releasePage (recoverInternal b s2).2)).mutexReleased
            = s.mutexReleased + 1 := by
      intro s2 ha hb2
      obtain ⟨g1, g2, -⟩ := recoverInternal_frame b s2
      exact hfin (recoverInternal b s2).2 (g1.trans ha) (g2.trans hb2)
    cases op with
    | ok => simpa using hfin s1 hs1a hs1r
    | err m =>
      by_cases hb : isBrowserError m
      · simp only [hb, if_true]
        rcases hR2 : recoverInternal b s1 with ⟨r2, s2⟩
        have := hrec s1 hs1a hs1r
        rw [hR2] at this
        cases r2 <;> simpa using this
      · simp only [hb, if_false]
        simpa using hfin s1 hs1a hs1r
    | timeout =>
      by_cases hb : isBrowserError (timeoutMessage t)
      · simp only [hb, if_true]
        rcases hR2 : recoverInternal b s1 with ⟨r2, s2⟩
        have := hrec s1 hs1a hs1r
        rw [hR2] at this
        cases r2 <;> simpa using this
      · simp only [hb, if_false]
        simpa using hfin s1 hs1a hs1r

/-- Claim C3: `recoverInternal` called in state `recovering` returns
immediately with no state change, no events and no driver calls;
otherwise it moves to `recovering`, tears the handle down ignoring
teardown errors, relaunches, re-runs login, and on success emits
`recovered` and ends `ready`, while on any rebuild or re-login failure
it ends in `error`, emits an `error` event and rethrows the failure. -/
theorem claim_C3_recoverInternal_spec (b : Behavior) (s : Session) :
    (s.state = .recovering → recoverInternal b s = (.ok (), s)) ∧
    (s.state ≠ .recovering → rebuildResult b = .ok () →
      recoverInternal b s =
        (.ok (), { s with
                     browser := true, context := true, page := true,
                     state := .ready, launches := s.launches + 1,
                     events := s.events ++
                       [Event.stateChange .recovering s.state, Event.recovered,
                        Event.stateChange .ready .recovering] })) ∧
    (s.state ≠ .recovering → ∀ e, rebuildResult b = .error e →
      (recoverInternal b s).1 = .error e ∧
      (recoverInternal b s).2.state = .error ∧
      (recoverInternal b s).2.events = s.events ++
        [Event.stateChange .recovering s.state,
         Event.stateChange .error .recovering, Event.errorEvt e]) := by
  refine ⟨recoverInternal_guard b s, recoverInternal_ok b s, ?_⟩
  intro h e hr
  obtain ⟨h1, h2, h3, -⟩ := recoverInternal_err b s e h hr
  exact ⟨h1, h2, h3⟩

/-- Witness for C3 exercising the reentrancy guard and the failing
rebuild at concrete inputs. -/
theorem claim_C3_witness :
    (recoveringSession.state = .recovering ∧
      recoverInternal allOk recoveringSession = (.ok (), recoveringSession)) ∧
    (readySession.state ≠ .recovering ∧
      rebuildResult badLaunch = .error "launch failure" ∧
      (recoverInternal badLaunch readySession).1 = .error "launch failure" ∧
      (recoverInternal badLaunch readySession).2.state = .error) := by
  refine ⟨⟨by decide, (claim_C3_recoverInternal_spec allOk recoveringSession).1 (by decide)⟩,
          by decide, by decide, ?_, ?_⟩
  · exact (((claim_C3_recoverInternal_spec badLaunch readySession).2.2
      (by decide) "launch failure" (by decide))).1
  · exact (((claim_C3_recoverInternal_spec badLaunch readySession).2.2
      (by decide) "launch failure" (by decide))).2.1

/-- Claim C4: `acquirePage` in state `error` attempts exactly one
implicit recovery before proceeding (a failed recovery propagates its
own error); after that it fails when the state is not `ready`, fails
when the page handle is null, and otherwise moves to `busy` and
returns the (non-null) page. -/
theorem claim_C4_acquirePage_spec (b : Behavior) (s : Session) :
    (s.state = .error → rebuildResult b = .ok () →
      acquirePage b s =
        (.ok (), { s with
                     browser := true, context := true, page := true,
                     state := .busy, launches := s.launches + 1,
                     events := s.events ++
                       [Event.stateChange .recovering .error, Event.recovered,
                        Event.stateChange .ready .recovering,
                        Event.stateChange .busy .ready] })) ∧
    (s.state = .error → ∀ e, rebuildResult b = .error e →
      (acquirePage b s).1 = .error e ∧ (acquirePage b s).2.state = .error) ∧
    (s.state ≠ .error → s.state ≠ .ready →
      acquirePage b s =
        (.error ("Cannot acquire page in state: " ++ s.state.str), s)) ∧
    (s.state = .ready → s.page = false →
      acquirePage b s = (.error "No browser page available", s)) ∧
    (s.state = .ready → s.page = true →
      acquirePage b s = (.ok (), setState s .busy)) := by
  refine ⟨acquirePage_error_ok b s, ?_, acquirePage_notReady b s,
          acquirePage_noPage b s, acquirePage_ready b s⟩
  intro h1 e hr
  obtain ⟨k1, k2⟩ := acquirePage_error_err b s e h1 hr
  exact ⟨by rw [k1], k2⟩

/-- Witness for C4: implicit recovery from the `error` state at a
concrete reachable session, and the `busy` transition from `ready`. -/
theorem claim_C4_witness :
    (erroredSession.state = .error ∧
      (acquirePage allOk erroredSession).1 = .ok () ∧
      (acquirePage allOk erroredSession).2.state = .busy ∧
      (acquirePage allOk erroredSession).2.launches = erroredSession.launches + 1) ∧
    (readySession.state = .ready ∧ readySession.page = true ∧
      acquirePage allOk readySession = (.ok (), setState readySession .busy)) := by
  have h1 := (claim_C4_acquirePage_spec allOk erroredSession).1 (by decide) (by decide)
  have h2 := (claim_C4_acquirePage_spec allOk readySession).2.2.2.2 (by decide) (by decide)
  refine ⟨⟨by decide, ?_, ?_, ?_⟩, by decide, by decide, h2⟩
  · rw [h1]
  · rw [h1]
  · rw [h1]

/-- Claim C9: `close` and `forceClose` never throw, for every prior
state and every behaviour of the teardown calls: both stop the
keep-alive scheduler, tear the handle down swallowing teardown errors,
and end with state `closed`; the observable semantics of `forceClose`
are identical to those of `close`. -/
theorem claim_C9_close_forceClose (b : Behavior) (s : Session) :
    close b s = forceClose b s ∧
    (close b s).1 = .ok () ∧
    (close b s).2.state = .closed ∧
    (close b s).2.keepAliveTimer = false := by
  refine ⟨rfl, rfl, ?_, ?_⟩ <;> simp [close, setState, closeBrowser]

/-- Claim C5 (amended): `start` throws without changing state when the
current state is not one of {uninitialized, closed, error}; when the
precondition holds it passes through `starting` and `logging_in`, and
on success the keep-alive scheduler is running, the state is `ready`
and the activity time is recorded; on a failure at any step the state
becomes `error`, an `error` event is emitted, the error is rethrown,
and the keep-alive scheduler is left exactly as it was before the call
(so it is not running when start began from a fresh or closed session,
but a scheduler left over from a previous generation keeps running). -/
theorem claim_C5_start_spec (b : Behavior) (s : Session) :
    (s.state ≠ .uninitialized ∧ s.state ≠ .closed ∧ s.state ≠ .error →
      start b s = (.error ("Cannot start session in state: " ++ s.state.str), s)) ∧
    ((s.state = .uninitialized ∨ s.state = .closed ∨ s.state = .error) →
      rebuildResult b = .ok () →
      start b s =
        (.ok (), { s with
                     browser := true, context := true, page := true,
                     state := .ready, keepAliveTimer := true,
                     launches := s.launches + 1,
                     clock := s.clock + 1, lastActivityTime := s.clock + 1,
                     events := s.events ++
                       [Event.stateChange .starting s.state,
                        Event.stateChange .logging_in .starting,
                        Event.stateChange .ready .logging_in] })) ∧
    ((s.state = .uninitialized ∨ s.state = .closed ∨ s.state = .error) →
      ∀ e, rebuildResult b = .error e →
      (start b s).1 = .error e ∧
      (start b s).2.state = .error ∧
      (start b s).2.keepAliveTimer = s.keepAliveTimer ∧
      (∃ l, (start b s).2.events = s.events ++ l ∧ Event.errorEvt e ∈ l)) :=
  ⟨start_guard b s, start_ok b s, fun h e hr => start_err b s e h hr⟩

/-- Counterexample for C5 as stated: on the reachable session obtained
by a successful `start` followed by a resource-fatal operation whose
recovery failed, a subsequent `start` whose login hook throws ends in
state `error` with the keep-alive scheduler from the previous
generation still running, contradicting the claim that after a failed
`start` the scheduler is not running. -/
theorem claim_C5_counterexample :
    Reachable erroredSession ∧
    erroredSession.state = .error ∧
    erroredSession.keepAliveTimer = true ∧
    (start badLogin erroredSession).1 = .error "login failure" ∧
    (start badLogin erroredSession).2.state = .error ∧
    (start badLogin erroredSession).2.keepAliveTimer = true := by
  refine ⟨?_, by decide, by decide, by decide, by decide, by decide⟩
  exact Relation.ReflTransGen.tail
    (Relation.ReflTransGen.tail Relation.ReflTransGen.refl
      (Step.start allOk initSession))
    (Step.withPage badLaunch (.err "Target closed") 60000 readySession)

/-- Witness for C5 at concrete inputs: a successful fresh start, a
rejected start from `ready`, and a fresh start with a failing login
hook (no scheduler running afterwards). -/
theorem claim_C5_witness :
    ((start allOk initSession).1 = .ok () ∧
      (start allOk initSession).2.state = .ready ∧
      (start allOk initSession).2.keepAliveTimer = true) ∧
    (start allOk readySession =
      (.error ("Cannot start session in state: " ++ SessionState.ready.str),
       readySession)) ∧
    ((start badLogin initSession).1 = .error "login failure" ∧
      (start badLogin initSession).2.state = .error ∧
      (start badLogin initSession).2.keepAliveTimer = false) := by
  have h1 := (claim_C5_start_spec allOk initSession).2.1 (by decide) (by decide)
  have h2 := (claim_C5_start_spec allOk readySession).1 (by decide)
  have h3 := (claim_C5_start_spec badLogin initSession).2.2 (by decide)
    "login failure" (by decide)
  refine ⟨⟨?_, ?_, ?_⟩, ?_, h3.1, h3.2.1, by rw [h3.2.2.1]; decide⟩
  · rw [h1]
  · rw [h1]
  · rw [h1]
  · rw [h2]
    have : readySession.state = .ready := by decide
    rw [this]

/-- Claim C7 (amended): creation and teardown of the Resource Handle
are atomic as long as the driver calls involved succeed: a successful
`start` or recovery leaves browser, context and page all present, and a
`closeBrowser` whose teardown calls do not throw leaves all three null.
When a driver call throws mid-creation or mid-teardown, however, a
partial handle (only some of the three fields set) can remain, as the
counterexample shows, so the all-or-nothing invariant does not hold on
every observable state. -/
theorem claim_C7_handle_atomic (b : Behavior) (s : Session) :
    (b.contextClose = .ok () → b.browserClose = .ok () →
      (closeBrowser b s).browser = false ∧ (closeBrowser b s).context = false ∧
      (closeBrowser b s).page = false) ∧
    ((s.state = .uninitialized ∨ s.state = .closed ∨ s.state = .error) →
      rebuildResult b = .ok () →
      (start b s).2.browser = true ∧ (start b s).2.context = true ∧
      (start b s).2.page = true) ∧
    (s.state ≠ .recovering → rebuildResult b = .ok () →
      (recoverInternal b s).2.browser = true ∧
      (recoverInternal b s).2.context = true ∧
      (recoverInternal b s).2.page = true) := by
  refine ⟨?_, ?_, ?_⟩
  · intro hc hb2
    cases hcx : s.context <;> cases hbr : s.browser <;>
      simp [closeBrowser, closeBrowserTriple, hc, hb2, hcx, hbr]
  · intro h hr
    rw [start_ok b s h hr]
    exact ⟨rfl, rfl, rfl⟩
  · intro h hr
    rw [recoverInternal_ok b s h hr]
    exact ⟨rfl, rfl, rfl⟩

/-- Counterexample for C7 as stated: a `start` from the fresh manager
whose context creation fails leaves only the browser field set — a
reachable, externally observable state in which the three handle fields
are neither all present nor all absent. -/
theorem claim_C7_counterexample :
    Reachable partialSession ∧
    partialSession.browser = true ∧
    partialSession.context = false ∧
    partialSession.page = false ∧
    ¬((partialSession.browser = true ∧ partialSession.context = true ∧
        partialSession.page = true) ∨
      (partialSession.browser = false ∧ partialSession.context = false ∧
        partialSession.page = false)) := by
  refine ⟨?_, by decide, by decide, by decide, by decide⟩
  exact Relation.ReflTransGen.tail Relation.ReflTransGen.refl
    (Step.start badContext initSession)

/-- Witness for C7 at concrete inputs: teardown with succeeding driver
calls nulls all three fields, and a successful fresh start sets all
three. -/
theorem claim_C7_witness :
    ((closeBrowser allOk readySession).browser = false ∧
      (closeBrowser allOk readySession).context = false ∧
      (closeBrowser allOk readySession).page = false) ∧
    ((start allOk initSession).2.browser = true ∧
      (start allOk initSession).2.context = true ∧
      (start allOk initSession).2.page = true) :=
  ⟨(claim_C7_handle_atomic allOk readySession).1 rfl rfl,
   (claim_C7_handle_atomic allOk initSession).2.1 (by decide) (by decide)⟩

/-- Claim C2: when the operation inside `withPage` rejects with a
message matching a known driver-crash signature, `recoverInternal` runs
before the error is rethrown and the caller receives the original
operation error, unless recovery itself fails, in which case the
recovery failure surfaces instead; a message matching no signature is
rethrown unchanged and no recovery runs (the launch counter and the
event list show that no driver call and no recovery transition
happened). -/
theorem claim_C2_withPage_error_classification
    (b : Behavior) (s : Session) (m : String) (t : Nat)
    (h1 : s.state = .ready) (h2 : s.page = true) :
    (isBrowserError m = false →
      withPage b (.err m) t s =
        (.error m, { s with
                       state := .ready,
                       clock := s.clock + 1, lastActivityTime := s.clock + 1,
                       mutexAcquired := s.mutexAcquired + 1,
                       mutexReleased := s.mutexReleased + 1,
                       events := s.events ++
                         [Event.stateChange .busy .ready,
                          Event.stateChange .ready .busy] })) ∧
    (isBrowserError m = true → rebuildResult b = .ok () →
      withPage b (.err m) t s =
        (.error m, { s with
                       browser := true, context := true, page := true,
                       state := .ready, launches := s.launches + 1,
                       mutexAcquired := s.mutexAcquired + 1,
                       mutexReleased := s.mutexReleased + 1,
                       events := s.events ++
                         [Event.stateChange .busy .ready,
                          Event.stateChange .recovering .busy, Event.recovered,
                          Event.stateChange .ready .recovering] })) ∧
    (isBrowserError m = true → ∀ e, rebuildResult b = .error e →
      (withPage b (.err m) t s).1 = .error e ∧
      (withPage b (.err m) t s).2.state = .error ∧
      (withPage b (.err m) t s).2.events = s.events ++
        [Event.stateChange .busy .ready, Event.stateChange .recovering .busy,
         Event.stateChange .error .recovering, Event.errorEvt e]) := by
  have h1m : (mutexAcquire s).state = .ready := h1
  have h2m : (mutexAcquire s).page = true := h2
  have hA : acquirePage b (mutexAcquire s) =
      (.ok (), setState (mutexAcquire s) .busy) :=
    acquirePage_ready b (mutexAcquire s) h1m h2m
  have hbusy : (setState (mutexAcquire s) .busy).state ≠ .recovering := by
    simp [setState]
  refine ⟨?_, ?_, ?_⟩
  · intro hb
    simp only [withPage, hA]
    simp [hb, releasePage, setState, touch, mutexAcquire, mutexRelease, h1]
  · intro hb hr
    have hrec := recoverInternal_ok b (setState (mutexAcquire s) .busy) hbusy hr
    simp only [withPage, hA]
    simp only [hb, ite_true]
    rw [hrec]
    simp [releasePage, setState, touch, mutexAcquire, mutexRelease, h1]
  · intro hb e hr
    obtain ⟨k1, k2, k3, k4, k5, -⟩ :=
      recoverInternal_err b (setState (mutexAcquire s) .busy) e hbusy hr
    simp only [withPage, hA]
    simp only [hb, ite_true]
    rcases hR : recoverInternal b (setState (mutexAcquire s) .busy) with ⟨r2, s2⟩
    rw [hR] at k1 k2 k3 k4 k5
    simp only at k1 k2 k3 k4 k5
    subst k1
    simp [releasePage, k2, k3, k4, k5, setState, mutexAcquire, mutexRelease, h1]

/-- Witness for C2 at concrete inputs: a business error is rethrown
with no recovery, a crash-signature error triggers a successful
recovery and is rethrown, and a crash-signature error with a failing
relaunch surfaces the recovery failure. -/
theorem claim_C2_witness :
    ((withPage allOk (.err "boom") 60000 readySession).1 = .error "boom" ∧
      (withPage allOk (.err "boom") 60000 readySession).2.launches =
        readySession.launches) ∧
    ((withPage allOk (.err "Target closed") 60000 readySession).1 =
        .error "Target closed" ∧
      (withPage allOk (.err "Target closed") 60000 readySession).2.launches =
        readySession.launches + 1) ∧
    ((withPage badLaunch (.err "Target closed") 60000 readySession).1 =
        .error "launch failure") := by
  have hb1 := (claim_C2_withPage_error_classification allOk readySession "boom"
    60000 (by decide) (by decide)).1 (by decide)
  have hb2 := (claim_C2_withPage_error_classification allOk readySession
    "Target closed" 60000 (by decide) (by decide)).2.1 (by decide) (by decide)
  have hb3 := (claim_C2_withPage_error_classification badLaunch readySession
    "Target closed" 60000 (by decide) (by decide)).2.2 (by decide)
    "launch failure" (by decide)
  refine ⟨⟨?_, ?_⟩, ⟨?_, ?_⟩, hb3.1⟩
  · rw [hb1]
  · rw [hb1]
  · rw [hb2]
  · rw [hb2]

theorem digitChar_isDigit : ∀ m, m < 10 → (Nat.digitChar m).isDigit = true := by
  decide

theorem toDigitsCore_succ (fuel n : Nat) (ds : List Char) :
    Nat.toDigitsCore 10 (fuel + 1) n ds =
      (if n / 10 = 0 then Nat.digitChar (n % 10) :: ds
       else Nat.toDigitsCore 10 fuel (n / 10) (Nat.digitChar (n % 10) :: ds)) := by
  simp [Nat.toDigitsCore]

theorem toDigitsCore_isDigit :
    ∀ (fuel n : Nat) (ds : List Char),
      (∀ c ∈ ds, c.isDigit = true) →
      ∀ c ∈ Nat.toDigitsCore 10 fuel n ds, c.isDigit = true := by
  intro fuel
  induction fuel with
  | zero =>
    intro n ds h c hc
    exact h c (by simpa [Nat.toDigitsCore] using hc)
  | succ f ih =>
    intro n ds h c hc
    have hd : (Nat.digitChar (n % 10)).isDigit = true :=
      digitChar_isDigit (n % 10) (Nat.mod_lt n (by decide))
    have hcons : ∀ x ∈ (Nat.digitChar (n % 10) :: ds), x.isDigit = true := by
      intro x hx
      rcases List.mem_cons.mp hx with h3 | h3
      · rw [h3]; exact hd
      · exact h x h3
    rw [toDigitsCore_succ] at hc
    by_cases hz : n / 10 = 0
    · rw [if_pos hz] at hc
      exact hcons c hc
    · rw [if_neg hz] at hc
      exact ih (n / 10) (Nat.digitChar (n % 10) :: ds) hcons c hc

theorem toString_nat_isDigit (n : Nat) :
    ∀ c ∈ (toString n).data, c.isDigit = true := by
  intro c hc
  have hrepr : (toString n).data = Nat.toDigitsCore 10 (n + 1) n [] := rfl
  rw [hrepr] at hc
  exact toDigitsCore_isDigit (n + 1) n [] (by simp) c hc

theorem hasPrefixChars_subset :
    ∀ (h p : List Char), hasPrefixChars h p = true → ∀ c ∈ p, c ∈ h := by
  intro h
  induction h with
  | nil =>
    intro p hp c hc
    cases p with
    | nil => simp at hc
    | cons d ds => simp [hasPrefixChars] at hp
  | cons a as ih =>
    intro p hp c hc
    cases p with
    | nil => simp at hc
    | cons d ds =>
      simp only [hasPrefixChars, Bool.and_eq_true, decide_eq_true_eq] at hp
      obtain ⟨hda, hrest⟩ := hp
      rcases List.mem_cons.mp hc with h3 | h3
      · rw [h3, hda]
        exact List.mem_cons_self a as
      · exact List.mem_cons_of_mem a (ih ds hrest c h3)

theorem hasSubstrChars_subset :
    ∀ (s pat : List Char), hasSubstrChars s pat = true → ∀ c ∈ pat, c ∈ s := by
  intro s
  induction s with
  | nil =>
    intro pat hp c hc
    cases pat with
    | nil => simp at hc
    | cons d ds => simp [hasSubstrChars] at hp
  | cons a as ih =>
    intro pat hp c hc
    simp only [hasSubstrChars, Bool.or_eq_true] at hp
    rcases hp with hp | hp
    · exact hasPrefixChars_subset (a :: as) pat hp c hc
    · exact List.mem_cons_of_mem a (ih pat hp c hc)

theorem strContains_missing (s pat : String) (c : Char)
    (hc : c ∈ pat.data) (hs : c ∉ s.data) : strContains s pat = false := by
  cases h : strContains s pat
  · rfl
  · exact absurd (hasSubstrChars_subset s.data pat.data h c hc) hs

theorem timeoutMessage_mem (t : Nat) (c : Char)
    (hc : c ∈ (timeoutMessage t).data) :
    c ∈ ("Page operation timed out after " : String).data ∨
      c.isDigit = true ∨ c ∈ ("ms" : String).data := by
  simp only [timeoutMessage, String.data_append, List.mem_append] at hc
  rcases hc with (hc | hc) | hc
  · exact Or.inl hc
  · exact Or.inr (Or.inl (toString_nat_isDigit t c hc))
  · exact Or.inr (Or.inr hc)

theorem isBrowserError_timeoutMessage (t : Nat) :
    isBrowserError (timeoutMessage t) = false := by
  have key : ∀ (pat : String) (c : Char), c ∈ pat.data →
      c ∉ ("Page operation timed out after " : String).data →
      c.isDigit = false → c ∉ ("ms" : String).data →
      strContains (timeoutMessage t) pat = false := by
    intro pat c hp1 hp2 hp3 hp4
    refine strContains_missing (timeoutMessage t) pat c hp1 ?_
    intro hmem
    rcases timeoutMessage_mem t c hmem with hx | hx | hx
    · exact hp2 hx
    · rw [hp3] at hx
      exact Bool.false_ne_true hx
    · exact hp4 hx
  have k1 := key "Target closed" 'T' (by decide) (by decide) (by decide) (by decide)
  have k2 := key "Browser closed" 'B' (by decide) (by decide) (by decide) (by decide)
  have k3 := key "Protocol error" 'c' (by decide) (by decide) (by decide) (by decide)
  have k4 := key "Session closed" 'S' (by decide) (by decide) (by decide) (by decide)
  have k5 := key "Connection closed" 'C' (by decide) (by decide) (by decide) (by decide)
  simp [isBrowserError, k1, k2, k3, k4, k5]

/-- Claim C10: for every `timeoutMs`, the timeout rejection message
matches none of the driver-crash signatures, so a pure timeout inside
`withPage` triggers no recovery (no launch, no recovery events) and the
state returns to `ready` through `releasePage`, the timeout error being
rethrown to the caller. -/
theorem claim_C10_timeout_never_recovers
    (b : Behavior) (t : Nat) (s : Session)
    (h1 : s.state = .ready) (h2 : s.page = true) :
    isBrowserError (timeoutMessage t) = false ∧
    withPage b .timeout t s =
      (.error (timeoutMessage t),
        { s with
            state := .ready,
            clock := s.clock + 1, lastActivityTime := s.clock + 1,
            mutexAcquired := s.mutexAcquired + 1,
            mutexReleased := s.mutexReleased + 1,
            events := s.events ++
              [Event.stateChange .busy .ready,
               Event.stateChange .ready .busy] }) := by
  have h1m : (mutexAcquire s).state = .ready := h1
  have h2m : (mutexAcquire s).page = true := h2
  have hA : acquirePage b (mutexAcquire s) =
      (.ok (), setState (mutexAcquire s) .busy) :=
    acquirePage_ready b (mutexAcquire s) h1m h2m
  refine ⟨isBrowserError_timeoutMessage t, ?_⟩
  simp only [withPage, hA]
  simp [isBrowserError_timeoutMessage t, releasePage, setState, touch,
    mutexAcquire, mutexRelease, h1]

/-- Witness for C10 at concrete inputs. -/
theorem claim_C10_witness :
    isBrowserError (timeoutMessage 60000) = false ∧
    (withPage allOk .timeout 60000 readySession).1 =
      .error "Page operation timed out after 60000ms" ∧
    (withPage allOk .timeout 60000 readySession).2.state = .ready ∧
    (withPage allOk .timeout 60000 readySession).2.launches =
      readySession.launches := by
  obtain ⟨w1, w2⟩ := claim_C10_timeout_never_recovers allOk 60000 readySession
    (by decide) (by decide)
  refine ⟨w1, ?_, ?_, ?_⟩
  · rw [w2]; decide
  · rw [w2]
  · rw [w2]

theorem refreshSession_healthy (b : Behavior) (s : Session)
    (hr : s.state = .ready) (hp : s.page = true)
    (h1 : b.refreshForKeepAlive = .ok ()) (h2 : b.isLoggedIn = .ok true) :
    refreshSession b s =
      (.ok (), { s with
                   clock := s.clock + 1, lastActivityTime := s.clock + 1,
                   mutexAcquired := s.mutexAcquired + 1,
                   mutexReleased := s.mutexReleased + 1 }) := by
  have hcond : ¬(s.state ≠ .ready ∨ s.page = false) := by simp [hr, hp]
  have hcondM : ¬((mutexAcquire s).state ≠ .ready ∨ (mutexAcquire s).page = false) :=
    hcond
  simp only [refreshSession, if_neg hcond, if_neg hcondM]
  simp [h1, h2, touch, mutexAcquire, mutexRelease]

theorem refreshSession_expired_ok (b : Behavior) (s : Session)
    (hr : s.state = .ready) (hp : s.page = true)
    (h1 : b.refreshForKeepAlive = .ok ()) (h2 : b.isLoggedIn = .ok false)
    (hrr : rebuildResult b = .ok ()) :
    refreshSession b s =
      (.ok (), { s with
                   browser := true, context := true, page := true,
                   state := .ready, launches := s.launches + 1,
                   clock := s.clock + 1, lastActivityTime := s.clock + 1,
                   mutexAcquired := s.mutexAcquired + 1,
                   mutexReleased := s.mutexReleased + 1,
                   events := s.events ++
                     [Event.sessionExpired,
                      Event.stateChange .recovering .ready, Event.recovered,
                      Event.stateChange .ready .recovering] }) := by
  have hcond : ¬(s.state ≠ .ready ∨ s.page = false) := by simp [hr, hp]
  have hcondM : ¬((mutexAcquire s).state ≠ .ready ∨ (mutexAcquire s).page = false) :=
    hcond
  have hg : (emit (mutexAcquire s) .sessionExpired).state ≠ .recovering := by
    simp [emit, mutexAcquire, hr]
  have hrec := recoverInternal_ok b (emit (mutexAcquire s) .sessionExpired) hg hrr
  simp only [refreshSession, if_neg hcond, if_neg hcondM]
  simp only [h1, h2]
  rw [hrec]
  simp [emit, mutexAcquire, mutexRelease, touch, hr]

theorem refreshSession_expired_err (b : Behavior) (s : Session)
    (hr : s.state = .ready) (hp : s.page = true)
    (h1 : b.refreshForKeepAlive = .ok ()) (h2 : b.isLoggedIn = .ok false)
    (e : String) (hrr : rebuildResult b = .error e) :
    (refreshSession b s).1 = .error e ∧
    (refreshSession b s).2.state = .error ∧
    (refreshSession b s).2.events = s.events ++
      [Event.sessionExpired, Event.stateChange .recovering .ready,
       Event.stateChange .error .recovering, Event.errorEvt e,
       Event.stateChange .recovering .error,
       Event.stateChange .error .recovering, Event.errorEvt e] ∧
    (refreshSession b s).2.mutexAcquired = s.mutexAcquired + 1 ∧
    (refreshSession b s).2.mutexReleased = s.mutexReleased + 1 := by
  have hcond : ¬(s.state ≠ .ready ∨ s.page = false) := by simp [hr, hp]
  have hcondM : ¬((mutexAcquire s).state ≠ .ready ∨ (mutexAcquire s).page = false) :=
    hcond
  have hg : (emit (mutexAcquire s) .sessionExpired).state ≠ .recovering := by
    simp [emit, mutexAcquire, hr]
  obtain ⟨k1, k2, k3, k4, k5, -⟩ :=
    recoverInternal_err b (emit (mutexAcquire s) .sessionExpired) e hg hrr
  simp only [refreshSession, if_neg hcond, if_neg hcondM]
  simp only [h1, h2]
  rcases hR : recoverInternal b (emit (mutexAcquire s) .sessionExpired) with ⟨r1, s2⟩
  rw [hR] at k1 k2 k3 k4 k5
  simp only at k1 k2 k3 k4 k5
  subst k1
  have hg2 : s2.state ≠ .recovering := by simp [k2]
  obtain ⟨m1, m2, m3, m4, m5, -⟩ := recoverInternal_err b s2 e hg2 hrr
  rcases hR2 : recoverInternal b s2 with ⟨r2, s3⟩
  rw [hR2] at m1 m2 m3 m4 m5
  simp only at m1 m2 m3 m4 m5
  subst m1
  simp [mutexRelease, hR2, m2, m3, m4, m5, k2, k3, k4, k5, emit, mutexAcquire, hr]

theorem refreshSession_refreshThrow (b : Behavior) (s : Session) (e0 : String)
    (hr : s.state = .ready) (hp : s.page = true)
    (h1 : b.refreshForKeepAlive = .error e0) :
    (rebuildResult b = .ok () →
      refreshSession b s =
        (.ok (), { s with
                     browser := true, context := true, page := true,
                     state := .ready, launches := s.launches + 1,
                     mutexAcquired := s.mutexAcquired + 1,
                     mutexReleased := s.mutexReleased + 1,
                     events := s.events ++
                       [Event.stateChange .recovering .ready, Event.recovered,
                        Event.stateChange .ready .recovering] })) ∧
    (∀ e, rebuildResult b = .error e →
      (refreshSession b s).1 = .error e ∧
      (refreshSession b s).2.state = .error ∧
      (refreshSession b s).2.events = s.events ++
        [Event.stateChange .recovering .ready,
         Event.stateChange .error .recovering, Event.errorEvt e] ∧
      (refreshSession b s).2.mutexAcquired = s.mutexAcquired + 1 ∧
      (refreshSession b s).2.mutexReleased = s.mutexReleased + 1) := by
  have hcond : ¬(s.state ≠ .ready ∨ s.page = false) := by simp [hr, hp]
  have hcondM : ¬((mutexAcquire s).state ≠ .ready ∨ (mutexAcquire s).page = false) :=
    hcond
  have hg : (mutexAcquire s).state ≠ .recovering := by simp [mutexAcquire, hr]
  constructor
  · intro hrr
    have hrec := recoverInternal_ok b (mutexAcquire s) hg hrr
    simp only [refreshSession, if_neg hcond, if_neg hcondM]
    simp only [h1]
    rw [hrec]
    simp [mutexAcquire, mutexRelease, hr]
  · intro e hrr
    obtain ⟨k1, k2, k3, k4, k5, -⟩ := recoverInternal_err b (mutexAcquire s) e hg hrr
    simp only [refreshSession, if_neg hcond, if_neg hcondM]
    simp only [h1]
    rcases hR : recoverInternal b (mutexAcquire s) with ⟨r1, s2⟩
    rw [hR] at k1 k2 k3 k4 k5
    simp only at k1 k2 k3 k4 k5
    subst k1
    simp [mutexRelease, k2, k3, k4, k5, mutexAcquire, hr]

theorem refreshSession_livenessThrow (b : Behavior) (s : Session) (e0 : String)
    (hr : s.state = .ready) (hp : s.page = true)
    (h1 : b.refreshForKeepAlive = .ok ()) (h2 : b.isLoggedIn = .error e0) :
    (rebuildResult b = .ok () →
      refreshSession b s =
        (.ok (), { s with
                     browser := true, context := true, page := true,
                     state := .ready, launches := s.launches + 1,
                     mutexAcquired := s.mutexAcquired + 1,
                     mutexReleased := s.mutexReleased + 1,
                     events := s.events ++
                       [Event.stateChange .recovering .ready, Event.recovered,
                        Event.stateChange .ready .recovering] })) ∧
    (∀ e, rebuildResult b = .error e →
      (refreshSession b s).1 = .error e ∧
      (refreshSession b s).2.state = .error ∧
      (refreshSession b s).2.events = s.events ++
        [Event.stateChange .recovering .ready,
         Event.stateChange .error .recovering, Event.errorEvt e] ∧
      (refreshSession b s).2.mutexAcquired = s.mutexAcquired + 1 ∧
      (refreshSession b s).2.mutexReleased = s.mutexReleased + 1) := by
  have hcond : ¬(s.state ≠ .ready ∨ s.page = false) := by simp [hr, hp]
  have hcondM : ¬((mutexAcquire s).state ≠ .ready ∨ (mutexAcquire s).page = false) :=
    hcond
  have hg : (mutexAcquire s).state ≠ .recovering := by simp [mutexAcquire, hr]
  constructor
  · intro hrr
    have hrec := recoverInternal_ok b (mutexAcquire s) hg hrr
    simp only [refreshSession, if_neg hcond, if_neg hcondM]
    simp only [h1, h2]
    rw [hrec]
    simp [mutexAcquire, mutexRelease, hr]
  · intro e hrr
    obtain ⟨k1, k2, k3, k4, k5, -⟩ := recoverInternal_err b (mutexAcquire s) e hg hrr
    simp only [refreshSession, if_neg hcond, if_neg hcondM]
    simp only [h1, h2]
    rcases hR : recoverInternal b (mutexAcquire s) with ⟨r1, s2⟩
    rw [hR] at k1 k2 k3 k4 k5
    simp only at k1 k2 k3 k4 k5
    subst k1
    simp [mutexRelease, k2, k3, k4, k5, mutexAcquire, hr]

/-- Claim C6: a keep-alive tick on a reachable session skips entirely
(no gate acquisition, no driver call, no change at all) unless the
state is `ready`; otherwise it acquires the Exclusivity Gate (released
again in every case, as the counters show), re-checks the state under
the gate, runs the refresh hook then the liveness check; a healthy tick
only updates the activity time; a false liveness result emits
`sessionExpired` and invokes recovery; a throwing refresh or liveness
hook also invokes recovery. -/
theorem claim_C6_keepalive_tick (b : Behavior) (s : Session) (hs : Reachable s) :
    (s.state ≠ .ready → refreshSession b s = (.ok (), s)) ∧
    (s.state = .ready →
      ((refreshSession b s).2.mutexAcquired = s.mutexAcquired + 1 ∧
       (refreshSession b s).2.mutexReleased = s.mutexReleased + 1) ∧
      (b.refreshForKeepAlive = .ok () → b.isLoggedIn = .ok true →
        refreshSession b s =
          (.ok (), { s with
                       clock := s.clock + 1, lastActivityTime := s.clock + 1,
                       mutexAcquired := s.mutexAcquired + 1,
                       mutexReleased := s.mutexReleased + 1 })) ∧
      (b.refreshForKeepAlive = .ok () → b.isLoggedIn = .ok false →
        Event.sessionExpired ∈ (refreshSession b s).2.events ∧
        Event.stateChange .recovering .ready ∈ (refreshSession b s).2.events) ∧
      (∀ e0, b.refreshForKeepAlive = .error e0 →
        Event.stateChange .recovering .ready ∈ (refreshSession b s).2.events) ∧
      (∀ e0, b.refreshForKeepAlive = .ok () → b.isLoggedIn = .error e0 →
        Event.stateChange .recovering .ready ∈ (refreshSession b s).2.events)) := by
  have hinv := reachable_pageInv s hs
  constructor
  · intro hns
    have hcond : s.state ≠ .ready ∨ s.page = false := Or.inl hns
    simp [refreshSession, hcond]
  · intro hr
    have hp : s.page = true := hinv (Or.inl hr)
    refine ⟨?_, ?_, ?_, ?_, ?_⟩
    · cases hb1 : b.refreshForKeepAlive with
      | error e0 =>
        cases hrr : rebuildResult b with
        | ok u =>
          obtain rfl : u = () := rfl
          rw [(refreshSession_refreshThrow b s e0 hr hp hb1).1 hrr]
          exact ⟨rfl, rfl⟩
        | error e1 =>
          obtain ⟨-, -, -, c4, c5⟩ :=
            (refreshSession_refreshThrow b s e0 hr hp hb1).2 e1 hrr
          exact ⟨c4, c5⟩
      | ok u =>
        obtain rfl : u = () := rfl
        cases hb2 : b.isLoggedIn with
        | error e0 =>
          cases hrr : rebuildResult b with
          | ok u2 =>
            obtain rfl : u2 = () := rfl
            rw [(refreshSession_livenessThrow b s e0 hr hp hb1 hb2).1 hrr]
            exact ⟨rfl, rfl⟩
          | error e1 =>
            obtain ⟨-, -, -, c4, c5⟩ :=
              (refreshSession_livenessThrow b s e0 hr hp hb1 hb2).2 e1 hrr
            exact ⟨c4, c5⟩
        | ok lg =>
          cases lg with
          | true =>
            rw [refreshSession_healthy b s hr hp hb1 hb2]
            exact ⟨rfl, rfl⟩
          | false =>
            cases hrr : rebuildResult b with
            | ok u2 =>
              obtain rfl : u2 = () := rfl
              rw [refreshSession_expired_ok b s hr hp hb1 hb2 hrr]
              exact ⟨rfl, rfl⟩
            | error e1 =>
              obtain ⟨-, -, -, c4, c5⟩ :=
                refreshSession_expired_err b s hr hp hb1 hb2 e1 hrr
              exact ⟨c4, c5⟩
    · intro h1 h2
      exact refreshSession_healthy b s hr hp h1 h2
    · intro h1 h2
      cases hrr : rebuildResult b with
      | ok u =>
        obtain rfl : u = () := rfl
        rw [refreshSession_expired_ok b s hr hp h1 h2 hrr]
        constructor <;> simp
      | error e1 =>
        obtain ⟨-, -, c3, -⟩ := refreshSession_expired_err b s hr hp h1 h2 e1 hrr
        rw [c3]
        constructor <;> simp
    · intro e0 h1
      cases hrr : rebuildResult b with
      | ok u =>
        obtain rfl : u = () := rfl
        rw [(refreshSession_refreshThrow b s e0 hr hp h1).1 hrr]
        simp
      | error e1 =>
        obtain ⟨-, -, c3, -⟩ := (refreshSession_refreshThrow b s e0 hr hp h1).2 e1 hrr
        rw [c3]
        simp
    · intro e0 h1 h2
      cases hrr : rebuildResult b with
      | ok u =>
        obtain rfl : u = () := rfl
        rw [(refreshSession_livenessThrow b s e0 hr hp h1 h2).1 hrr]
        simp
      | error e1 =>
        obtain ⟨-, -, c3, -⟩ :=
          (refreshSession_livenessThrow b s e0 hr hp h1 h2).2 e1 hrr
        rw [c3]
        simp

/-- Witness for C6 at concrete inputs: a healthy tick on the started
session balances the gate counters, and a tick on the fresh
(uninitialized) manager is a complete no-op. -/
theorem claim_C6_witness :
    ((refreshSession allOk readySession).2.mutexAcquired =
        readySession.mutexAcquired + 1 ∧
      (refreshSession allOk readySession).2.mutexReleased =
        readySession.mutexReleased + 1) ∧
    refreshSession allOk initSession = (.ok (), initSession) := by
  have hre : Reachable readySession :=
    Relation.ReflTransGen.tail Relation.ReflTransGen.refl
      (Step.start allOk initSession)
  have h1 := ((claim_C6_keepalive_tick allOk readySession hre).2 (by decide)).1
  have h2 := (claim_C6_keepalive_tick allOk initSession
    Relation.ReflTransGen.refl).1 (by decide)
  exact ⟨h1, h2⟩

/-- Claim C8 (amended): a recovery failure inside a keep-alive tick is
reported through the `error` event emitted during the tick and the Gate
is still released, and no API caller observes the failure because the
interval callback has no caller awaiting it — but `refreshSession`
itself does reject in that case (the counterexample), so the claim that
`refreshSession` never throws does not hold of the code. -/
theorem claim_C8_tick_failure_reported (b : Behavior) (s : Session) (e : String)
    (h : (refreshSession b s).1 = .error e) :
    (∃ l, (refreshSession b s).2.events = s.events ++ l ∧
      Event.errorEvt e ∈ l) ∧
    (refreshSession b s).2.mutexReleased = s.mutexReleased + 1 := by
  by_cases hc : s.state ≠ .ready ∨ s.page = false
  · exfalso
    simp [refreshSession, hc] at h
  · push_neg at hc
    obtain ⟨hr, hp'⟩ := hc
    have hp : s.page = true := by
      cases hpg : s.page
      · exact absurd hpg hp'
      · rfl
    cases hb1 : b.refreshForKeepAlive with
    | error e0 =>
      cases hrr : rebuildResult b with
      | ok u =>
        obtain rfl : u = () := rfl
        rw [(refreshSession_refreshThrow b s e0 hr hp hb1).1 hrr] at h
        exact absurd h (by simp)
      | error e1 =>
        obtain ⟨c1, -, c3, -, c5⟩ :=
          (refreshSession_refreshThrow b s e0 hr hp hb1).2 e1 hrr
        rw [c1] at h
        injection h with h14
        subst h14
        exact ⟨⟨_, c3, by simp⟩, c5⟩
    | ok u =>
      obtain rfl : u = () := rfl
      cases hb2 : b.isLoggedIn with
      | error e0 =>
        cases hrr : rebuildResult b with
        | ok u2 =>
          obtain rfl : u2 = () := rfl
          rw [(refreshSession_livenessThrow b s e0 hr hp hb1 hb2).1 hrr] at h
          exact absurd h (by simp)
        | error e1 =>
          obtain ⟨c1, -, c3, -, c5⟩ :=
            (refreshSession_livenessThrow b s e0 hr hp hb1 hb2).2 e1 hrr
          rw [c1] at h
          injection h with h14
          subst h14
          exact ⟨⟨_, c3, by simp⟩, c5⟩
      | ok lg =>
        cases lg with
        | true =>
          rw [refreshSession_healthy b s hr hp hb1 hb2] at h
          exact absurd h (by simp)
        | false =>
          cases hrr : rebuildResult b with
          | ok u2 =>
            obtain rfl : u2 = () := rfl
            rw [refreshSession_expired_ok b s hr hp hb1 hb2 hrr] at h
            exact absurd h (by simp)
          | error e1 =>
            obtain ⟨c1, -, c3, -, c5⟩ :=
              refreshSession_expired_err b s hr hp hb1 hb2 e1 hrr
            rw [c1] at h
            injection h with h14
            subst h14
            exact ⟨⟨_, c3, by simp⟩, c5⟩

/-- Counterexample for C8 as stated: on the reachable started session,
a tick whose refresh hook throws and whose recovery relaunch also fails
makes `refreshSession` itself reject — the promise returned to the
interval callback is rejected, so "refreshSession never throws" is
false on the code. -/
theorem claim_C8_counterexample :
    Reachable readySession ∧
    (refreshSession badTick readySession).1 = .error "launch failure" := by
  refine ⟨?_, by decide⟩
  exact Relation.ReflTransGen.tail Relation.ReflTransGen.refl
    (Step.start allOk initSession)

/-- Witness for C8 at a concrete failing tick. -/
theorem claim_C8_witness :
    (∃ l, (refreshSession badTick readySession).2.events =
        readySession.events ++ l ∧
      Event.errorEvt "launch failure" ∈ l) ∧
    (refreshSession badTick readySession).2.mutexReleased =
      readySession.mutexReleased + 1 :=
  claim_C8_tick_failure_reported badTick readySession "launch failure" (by decide)

end RPA
